import Mathlib

/-!
Shallow embedding of the cluster synchronization subsystem of the
repository hn-88/sgct-test-builds, used to settle the claims of its
specification.  Machine values are modelled at the bit level: an IEEE
double is carried as its 64 bit pattern (a natural number below 2 ^ 64),
a float as its 32 bit pattern, an int32 as its 32 bit two complement
pattern, and a C++ bool as one byte holding 0 or 1.  Byte buffers are
lists of natural numbers, one entry per byte.
-/

/-- Modelled from the spec: `sgct::serializeObject` (the shared data
serialization primitive is not under src, only its callers are) copies the
raw bytes of a trivially copyable value onto the end of the buffer.  A
value of byte width `w` whose bit pattern is `n` is laid out as `w`
bytes, least significant byte first. -/
def bytesOfNat : Nat → Nat → List Nat
  | 0, _ => []
  | w + 1, n => n % 256 :: bytesOfNat w (n / 256)

/-- Reassembles a bit pattern from its byte layout. -/
def natOfBytes : List Nat → Nat
  | [] => 0
  | b :: bs => b + 256 * natOfBytes bs

/-- Modelled from the spec: `sgct::deserializeObject(data, pos, obj)`
consumes exactly `sizeof(obj)` bytes of `data` starting at `pos` (the
bytes the matching serialize call produced, in the same field order) and
reports the new read position.  It returns the reconstructed bit pattern
together with the advanced position. -/
def deserializeNat (data : List Nat) (pos w : Nat) : Nat × Nat :=
  (natOfBytes ((data.drop pos).take w), pos + w)

/-- Byte representation of a C++ bool value. -/
def boolByte (b : Bool) : Nat := if b then 1 else 0

/-- Synchronized state of the remote app (src/src/apps/remote/main.cpp):
`currentTime` is a double, `sizeFactor` a float, `showGraph` a bool.  The
numeric fields are carried as bit patterns. -/
structure RemoteState where
  currentTime : Nat
  sizeFactor : Nat
  showGraph : Bool

/-- The bit patterns of the numeric fields fit their machine width. -/
def RemoteState.wf (s : RemoteState) : Prop :=
  s.currentTime < 2 ^ 64 ∧ s.sizeFactor < 2 ^ 32

/-- Embedding of `encode` of the remote app (src/src/apps/remote/main.cpp
lines 50 to 56): serializes `currentTime`, `sizeFactor` and `showGraph`,
in this order, into a fresh buffer. -/
def encode (s : RemoteState) : List Nat :=
  bytesOfNat 8 s.currentTime ++
    (bytesOfNat 4 s.sizeFactor ++ bytesOfNat 1 (boolByte s.showGraph))

/-- Embedding of `decode` of the remote app (src/src/apps/remote/main.cpp
lines 58 to 62): reads the three fields in the order encode wrote them,
starting at `pos`; the position advances across the three reads because
`deserializeObject` takes it by reference.  Returns the reconstructed
state and the final read position. -/
def decode (data : List Nat) (pos : Nat) : RemoteState × Nat :=
  let d1 := deserializeNat data pos 8
  let d2 := deserializeNat data d1.2 4
  let d3 := deserializeNat data d2.2 1
  (⟨d1.1, d2.1, d3.1 != 0⟩, d3.2)

/-- Synchronized state of the dome viewer app
(src/src/apps/openvrfulldomeviewer/main.cpp): `curr_time` is a
SharedDouble, `info`, `stats` and `wireframe` are SharedBool, `texIndex`
and `incrIndex` are SharedInt32 (carried as 32 bit patterns). -/
structure DomeState where
  curr_time : Nat
  info : Bool
  stats : Bool
  wireframe : Bool
  texIndex : Nat
  incrIndex : Nat

/-- The bit patterns of the numeric fields fit their machine width. -/
def DomeState.wf (s : DomeState) : Prop :=
  s.curr_time < 2 ^ 64 ∧ s.texIndex < 2 ^ 32 ∧ s.incrIndex < 2 ^ 32

/-- Embedding of `myEncodeFun` of the dome viewer app
(src/src/apps/openvrfulldomeviewer/main.cpp lines 299 to 307): writes
`curr_time`, `info`, `stats`, `wireframe`, `texIndex`, `incrIndex` in
this order (the SharedData write primitives, which are not under src,
append the raw value bytes to the shared buffer). -/
def myEncodeFun (s : DomeState) : List Nat :=
  bytesOfNat 8 s.curr_time ++
    (bytesOfNat 1 (boolByte s.info) ++
      (bytesOfNat 1 (boolByte s.stats) ++
        (bytesOfNat 1 (boolByte s.wireframe) ++
          (bytesOfNat 4 s.texIndex ++ bytesOfNat 4 s.incrIndex))))

/-- Embedding of `myDecodeFun` of the dome viewer app
(src/src/apps/openvrfulldomeviewer/main.cpp lines 309 to 317): reads the
six fields back in the order `myEncodeFun` wrote them, starting at the
position where encoding began. -/
def myDecodeFun (data : List Nat) (pos : Nat) : DomeState × Nat :=
  let d1 := deserializeNat data pos 8
  let d2 := deserializeNat data d1.2 1
  let d3 := deserializeNat data d2.2 1
  let d4 := deserializeNat data d3.2 1
  let d5 := deserializeNat data d4.2 4
  let d6 := deserializeNat data d5.2 4
  (⟨d1.1, d2.1 != 0, d3.1 != 0, d4.1 != 0, d5.1, d6.1⟩, d6.2)

/-- State touched by the data transfer acknowledge handler of the dome
viewer app: the id of the last sent package, the static ack counter
inside `myDataTransferAcknowledge`, and the `clientsUploadDone` flag. -/
structure TransferState where
  lastPackage : Int
  counter : Nat
  clientsUploadDone : Bool
deriving DecidableEq

/-- Embedding of `myDataTransferAcknowledge`
(src/src/apps/openvrfulldomeviewer/main.cpp lines 431 to 447) for a
cluster of `numberOfNodes` nodes: logging aside, when the acknowledged
package id equals the last sent package the static counter is
incremented, and when it reaches `numberOfNodes - 1` the handler sets
`clientsUploadDone` and resets the counter.  The acknowledging client
index is only printed, never recorded, and the handler never consults
which clients are connected. -/
def myDataTransferAcknowledge (numberOfNodes : Nat) (s : TransferState)
    (packageId : Int) (clientIndex : Nat) : TransferState :=
  if packageId = s.lastPackage then
    if s.counter + 1 = numberOfNodes - 1 then
      { s with counter := 0, clientsUploadDone := true }
    else
      { s with counter := s.counter + 1 }
  else s

/-- Embedding of `myDataTransferStatus`
(src/src/apps/openvrfulldomeviewer/main.cpp lines 426 to 429): a connect
or disconnect of a transfer node is only logged; no transfer state
changes. -/
def myDataTransferStatus (s : TransferState) (connected : Bool)
    (clientIndex : Nat) : TransferState :=
  s

/-- Folds a list of observed acknowledgements, each a pair of package id
and acknowledging client index, through the acknowledge handler. -/
def applyAcks (numberOfNodes : Nat) (s : TransferState)
    (acks : List (Int × Nat)) : TransferState :=
  acks.foldl (fun t p => myDataTransferAcknowledge numberOfNodes t p.1 p.2) s

/-- State of the TrackingManager shared with the sampling thread, both
fields guarded by the Tracking mutex
(src/src/sgct/trackingmanager.cpp). -/
structure TrackingManagerState where
  isRunning : Bool
  samplingTime : Rat

/-- Embedding of the first step of the TrackingManager destructor
(src/src/sgct/trackingmanager.cpp lines 137 to 140): it sets `_isRunning`
to false while holding the Tracking mutex, the same mutex `isRunning()`
locks, so every read of the flag performed after this step observes
false. -/
def destructorStop (s : TrackingManagerState) : TrackingManagerState :=
  { s with isRunning := false }

/-- Embedding of `TrackingManager::setSamplingTime`
(src/src/sgct/trackingmanager.cpp lines 394 to 402): stores the sampling
time under the Tracking mutex. -/
def setSamplingTime (s : TrackingManagerState) (t : Rat) :
    TrackingManagerState :=
  { s with samplingTime := t }

/-- Exit behaviour of `samplingLoop` (src/src/sgct/trackingmanager.cpp
lines 75 to 113).  Each iteration polls the devices, reads `isRunning()`
once under the Tracking mutex, stores the sampling time, sleeps one
millisecond, and breaks at the end of the iteration when the read
returned false.  Given the values returned by the successive flag reads,
this counts the iterations the loop executes: `none` means the trace was
exhausted before a false read (the loop is still running). -/
def iterationsUntilExit : List Bool → Option Nat
  | [] => none
  | r :: rs => if r then (iterationsUntilExit rs).map (· + 1) else some 1

/-- Log levels of the diagnostics sink (src/include/sgct/log.h). -/
inductive LogLevel where
  | Debug
  | Info
  | Warning
  | Error
deriving DecidableEq

/-- A tracking device, fields after the spec data model: name, sensor id,
enabled flag, button states, axis values, and the sensor pose written by
the hardware callbacks.  Machine floating point components are modelled
as rationals; only equality of whole states matters for the claims
below. -/
structure TrackingDevice where
  name : String
  sensorId : Int
  enabled : Bool
  buttons : List Bool
  axes : List Rat
  sensorPos : Rat × Rat × Rat
  sensorRot : Rat × Rat × Rat × Rat
deriving DecidableEq

/-- A named tracker carrying a scale and its devices. -/
structure Tracker where
  name : String
  scale : Rat
  devices : List TrackingDevice
deriving DecidableEq

/-- A fresh tracker as constructed by `addTracker`: no devices yet. -/
def newTracker (name : String) : Tracker :=
  ⟨name, 1, []⟩

/-- Embedding of `TrackingManager::tracker(name)`
(src/src/sgct/trackingmanager.cpp lines 374 to 381): the first tracker
whose name matches, if any. -/
def tracker (ts : List Tracker) (name : String) : Option Tracker :=
  ts.find? (fun t => t.name == name)

/-- Embedding of `TrackingManager::addTracker`
(src/src/sgct/trackingmanager.cpp lines 254 to 267): when no tracker of
that name exists a new one is appended (together with its parallel
gTrackers entry) and an Info message is logged; otherwise the collection
is left unchanged and a Warning is logged. -/
def addTracker (ts : List Tracker) (name : String) : List Tracker × LogLevel :=
  if (tracker ts name).isNone then (ts ++ [newTracker name], LogLevel.Info)
  else (ts, LogLevel.Warning)

/-- Modelled from the spec: `Tracker::device(name)` is not under src;
the head binding is a weak reference by tracker name and device name,
resolved to the device with that name. -/
def device (t : Tracker) (name : String) : Option TrackingDevice :=
  t.devices.find? (fun d => d.name == name)

/-- Embedding of `TrackingManager::startSampling`
(src/src/sgct/trackingmanager.cpp lines 203 to 236).  Arguments: whether
the library was built with VRPN support, the tracker collection, and the
head tracker and head device names of the tracked user.  Returns whether
the sampling thread was spawned, together with the log messages emitted.
Without VRPN only a warning is logged; with VRPN the function returns at
once when no trackers are configured; when a configured head binding
(both names nonempty) cannot be resolved an Error is logged and no
thread is spawned; otherwise the sampling thread starts. -/
def startSampling (hasVRPN : Bool) (ts : List Tracker)
    (headTrackerName headDeviceName : String) : Bool × List LogLevel :=
  if !hasVRPN then (false, [LogLevel.Warning])
  else if ts.isEmpty then (false, [])
  else
    let tr := tracker ts headTrackerName
    let head := tr.bind (fun t => device t headDeviceName)
    if head.isNone && !(headTrackerName == "") && !(headDeviceName == "") then
      (false, [LogLevel.Error])
    else (true, [])

/-- Payload of the VRPN position callback (vrpn_TRACKERCB). -/
structure TrackerCB where
  sensor : Int
  pos : Rat × Rat × Rat
  quat : Rat × Rat × Rat × Rat
deriving DecidableEq

/-- Modelled from the spec: `Tracker::deviceBySensorId` is not under src;
per the data model a device is identified within its tracker by its
sensor id, so the lookup returns the first device with the given sensor
id, or none. -/
def deviceBySensorId (t : Tracker) (id : Int) : Option TrackingDevice :=
  t.devices.find? (fun d => d.sensorId == id)

/-- Modelled from the spec: `TrackingDevice::setSensorTransform` is not
under src; the callback writes position and orientation into the guarded
device state, and a callback firing for a disabled device is a no-op
(spec section 4.1 edge case). -/
def setSensorTransform (d : TrackingDevice) (pos : Rat × Rat × Rat)
    (rot : Rat × Rat × Rat × Rat) : TrackingDevice :=
  if d.enabled then { d with sensorPos := pos, sensorRot := rot } else d

/-- Replaces the first device with the given sensor id by its updated
version, matching the single device returned by `deviceBySensorId`. -/
def updateFirstBySensorId (ds : List TrackingDevice) (id : Int)
    (f : TrackingDevice → TrackingDevice) : List TrackingDevice :=
  match ds with
  | [] => []
  | d :: rest =>
    if d.sensorId == id then f d :: rest
    else d :: updateFirstBySensorId rest id f

/-- Embedding of the VRPN position callback `updateTracker`
(src/src/sgct/trackingmanager.cpp lines 39 to 63): null userdata returns
at once; the device is resolved by sensor id and when absent the callback
returns without touching any state; otherwise the device found receives
the position scaled by the tracker scale, and the rotation. -/
def updateTracker (userdata : Option Tracker) (t : TrackerCB) :
    Option Tracker :=
  match userdata with
  | none => none
  | some tr =>
    match deviceBySensorId tr t.sensor with
    | none => some tr
    | some _ =>
      some { tr with devices :=
        (updateFirstBySensorId tr.devices t.sensor
          (fun d => setSensorTransform d
            (t.pos.1 * tr.scale, t.pos.2.1 * tr.scale, t.pos.2.2 * tr.scale)
            t.quat)) }

/-- Payload of the VRPN button callback (vrpn_BUTTONCB). -/
structure ButtonCB where
  button : Nat
  state : Int
deriving DecidableEq

/-- Payload of the VRPN analog callback (vrpn_ANALOGCB). -/
structure AnalogCB where
  channel : List Rat
  numChannel : Nat
deriving DecidableEq

/-- Modelled from the spec: `TrackingDevice::setButtonValue` is not under
src; it writes the button state into the guarded device state (a write
outside the button range is dropped), and a callback firing for a
disabled device is a no-op (spec section 4.1 edge case). -/
def setButtonValue (d : TrackingDevice) (v : Bool) (idx : Nat) :
    TrackingDevice :=
  if d.enabled then { d with buttons := d.buttons.set idx v } else d

/-- Writes the first `n` reported axis values over the stored axes,
keeping the stored length. -/
def writeAxes (axes vals : List Rat) (n : Nat) : List Rat :=
  vals.take (min n axes.length) ++ axes.drop (min n axes.length)

/-- Modelled from the spec: `TrackingDevice::setAnalogValue` is not under
src; it writes the reported axis values into the guarded device state,
and a callback firing for a disabled device is a no-op (spec section 4.1
edge case). -/
def setAnalogValue (d : TrackingDevice) (vals : List Rat) (n : Nat) :
    TrackingDevice :=
  if d.enabled then { d with axes := writeAxes d.axes vals n } else d

/-- Embedding of the VRPN button callback `updateButton`
(src/src/sgct/trackingmanager.cpp lines 65 to 68). -/
def updateButton (userdata : TrackingDevice) (b : ButtonCB) :
    TrackingDevice :=
  setButtonValue userdata (b.state != 0) b.button

/-- Embedding of the VRPN analog callback `updateAnalog`
(src/src/sgct/trackingmanager.cpp lines 70 to 73). -/
def updateAnalog (userdata : TrackingDevice) (a : AnalogCB) :
    TrackingDevice :=
  setAnalogValue userdata a.channel a.numChannel

/-- A concrete enabled device with sensor id 7, for witnesses. -/
def demoDevice7 : TrackingDevice :=
  ⟨"head", 7, true, [], [], (0, 0, 0), (0, 0, 0, 0)⟩

/-- A concrete disabled device with sensor id 9, for witnesses. -/
def demoDeviceOff9 : TrackingDevice :=
  ⟨"hand", 9, false, [false, false], [0], (0, 0, 0), (0, 0, 0, 0)⟩

/-- A concrete tracker holding only `demoDevice7`, for witnesses. -/
def demoTracker : Tracker :=
  ⟨"t", 1, [demoDevice7]⟩

/-- A concrete tracker holding only `demoDeviceOff9`, for witnesses. -/
def demoTrackerOff : Tracker :=
  ⟨"u", 1, [demoDeviceOff9]⟩

/-- A concrete position callback payload for sensor id 9, for
witnesses. -/
def demoCB : TrackerCB :=
  ⟨9, (1, 2, 3), (0, 0, 0, 1)⟩

/-- Presence of the three optional VRPN remotes of one device, the
gTrackers entry kept in lockstep with the device list by
`addDeviceToCurrentTracker`. -/
structure VRPNPointer where
  sensorDevice : Bool
  analogDevice : Bool
  buttonDevice : Bool
deriving DecidableEq

/-- The three kinds of VRPN remote a device may poll. -/
inductive PollKind where
  | sensor
  | analog
  | button
deriving DecidableEq

/-- Whether the gTrackers entry holds a remote of the given kind. -/
def VRPNPointer.has : VRPNPointer → PollKind → Bool
  | p, PollKind.sensor => p.sensorDevice
  | p, PollKind.analog => p.analogDevice
  | p, PollKind.button => p.buttonDevice

/-- Observable actions of one pass of the sampling loop. -/
inductive LoopEvent where
  | poll (k : PollKind) (trackerIdx deviceIdx : Nat)
  | readRunning
  | storeSamplingTime (elapsed : Rat)
  | sleepMs (ms : Nat)
deriving DecidableEq

/-- Poll actions of the sampling loop for the device at tracker index `i`
and device index `j`: a disabled device is skipped; for an enabled device
each existing VRPN remote gets exactly one mainloop call, sensor first,
then analog, then button (src/src/sgct/trackingmanager.cpp lines 85 to
100). -/
def devicePolls (i j : Nat) (d : TrackingDevice × VRPNPointer) :
    List LoopEvent :=
  if d.1.enabled then
    (if d.2.sensorDevice then [LoopEvent.poll PollKind.sensor i j] else []) ++
      ((if d.2.analogDevice then [LoopEvent.poll PollKind.analog i j] else []) ++
        (if d.2.buttonDevice then [LoopEvent.poll PollKind.button i j] else []))
  else []

/-- Poll actions of one tracker, devices visited in order from device
index `j`. -/
def trackerPolls (i : Nat) :
    Nat → List (TrackingDevice × VRPNPointer) → List LoopEvent
  | _, [] => []
  | j, d :: ds => devicePolls i j d ++ trackerPolls i (j + 1) ds

/-- Poll actions of one full pass, trackers visited in order from tracker
index `i`; a null tracker slot is skipped. -/
def passPolls :
    Nat → List (Option (List (TrackingDevice × VRPNPointer))) → List LoopEvent
  | _, [] => []
  | i, none :: ts => passPolls (i + 1) ts
  | i, some ds :: ts => trackerPolls i 0 ds ++ passPolls (i + 1) ts

/-- One pass of `samplingLoop` (src/src/sgct/trackingmanager.cpp lines 78
to 112) started at time `t0` and reaching the end of its polls at time
`t1`: after polling every enabled device once it reads the running flag,
stores the elapsed time of the pass as the sampling time under the
Tracking mutex, and sleeps one millisecond before the break check. -/
def samplingPass (ts : List (Option (List (TrackingDevice × VRPNPointer))))
    (t0 t1 : Rat) : List LoopEvent :=
  passPolls 0 ts ++
    [LoopEvent.readRunning, LoopEvent.storeSamplingTime (t1 - t0),
      LoopEvent.sleepMs 1]

/-- Sync parameters of the Engine (src/include/sgct/engine.h lines 347 to
348): whether to print the once per second waiting message, and the
barrier timeout in seconds that master and clients wait for.  The float
timeout is carried as a rational. -/
structure SyncParams where
  printSyncMessage : Bool
  syncTimeout : Rat
deriving DecidableEq

/-- In class initializers of the Engine fields: `_printSyncMessage =
true` and `_syncTimeout = 60.f`, the state when `setSyncParameters` is
never called. -/
def initSyncParams : SyncParams :=
  ⟨true, 60⟩

/-- Embedding of `Engine::setSyncParameters` (src/include/sgct/engine.h
lines 251 to 258). -/
def setSyncParameters (s : SyncParams) (printMessage : Bool)
    (timeout : Rat) : SyncParams :=
  ⟨printMessage, timeout⟩

/-- Calling `setSyncParameters()` with its declared default arguments,
`printMessage = true` and `timeout = 60.f`. -/
def setSyncParametersDefault (s : SyncParams) : SyncParams :=
  setSyncParameters s true 60

/-- Flags of the dome viewer app read and written by one iteration of
`threadWorker`. -/
structure WorkerState where
  transfer : Bool
  serverUploadDone : Bool
  clientsUploadDone : Bool
deriving DecidableEq

/-- Embedding of one iteration of `threadWorker`
(src/src/apps/openvrfulldomeviewer/main.cpp lines 449 to 471), flags
only: when a transfer is pending and neither upload flag is set, the
master starts the data transfer, clears `transfer`, uploads its own
textures and sets `serverUploadDone`; when the cluster has exactly one
node it sets `clientsUploadDone` immediately as well, without any
acknowledgement.  (`startDataTransfer` and `uploadTexture` also touch
image and package state that this claim does not mention.) -/
def threadWorkerIteration (numberOfNodes : Nat) (s : WorkerState) :
    WorkerState :=
  if s.transfer && !s.serverUploadDone && !s.clientsUploadDone then
    let s1 : WorkerState := ⟨false, true, s.clientsUploadDone⟩
    if numberOfNodes = 1 then { s1 with clientsUploadDone := true } else s1
  else s

/-- Fixed length of each statistics history (src/include/sgct/engine.h
line 44). -/
def HistoryLength : Nat := 128

/-- Embedding of `Engine::Statistics` (src/include/sgct/engine.h lines 43
to 64): five per frame metric histories; doubles are carried as
rationals. -/
structure Statistics where
  frametimes : List Rat
  drawTimes : List Rat
  syncTimes : List Rat
  loopTimeMin : List Rat
  loopTimeMax : List Rat

/-- Every history is a std::array of exactly HistoryLength doubles. -/
def Statistics.wf (s : Statistics) : Prop :=
  s.frametimes.length = HistoryLength ∧ s.drawTimes.length = HistoryLength ∧
    s.syncTimes.length = HistoryLength ∧
    s.loopTimeMin.length = HistoryLength ∧
    s.loopTimeMax.length = HistoryLength

/-- Value initialized statistics: each array starts as HistoryLength
zeroes (`= {}` in the member declarations). -/
def initStatistics : Statistics :=
  ⟨List.replicate HistoryLength 0, List.replicate HistoryLength 0,
    List.replicate HistoryLength 0, List.replicate HistoryLength 0,
    List.replicate HistoryLength 0⟩

/-- Modelled from the spec: the member function recording a frame is not
under src; the doc comment of `Engine::Statistics` states that the newest
value is always at the front of each array, so recording a frame shifts
each fixed size array by one place, writing the new sample at index 0 and
dropping the oldest sample. -/
def recordFrameStats (s : Statistics) (ft dt st lmin lmax : Rat) :
    Statistics :=
  ⟨ft :: s.frametimes.dropLast, dt :: s.drawTimes.dropLast,
    st :: s.syncTimes.dropLast, lmin :: s.loopTimeMin.dropLast,
    lmax :: s.loopTimeMax.dropLast⟩

theorem bytesOfNat_length (w n : Nat) : (bytesOfNat w n).length = w := by
  induction w generalizing n with
  | zero => rfl
  | succ w ih => simp [bytesOfNat, ih]

theorem natOfBytes_bytesOfNat (w n : Nat) :
    natOfBytes (bytesOfNat w n) = n % 2 ^ (8 * w) := by
  induction w generalizing n with
  | zero => simp [bytesOfNat, natOfBytes, Nat.mod_one]
  | succ w ih =>
      have h : 2 ^ (8 * (w + 1)) = 256 * 2 ^ (8 * w) := by
        rw [Nat.mul_succ, pow_add]
        ring
      simp only [bytesOfNat, natOfBytes]
      rw [ih, h, Nat.mod_mul]

theorem deserializeNat_append (pre rest : List Nat) (w v : Nat) :
    deserializeNat (pre ++ (bytesOfNat w v ++ rest)) pre.length w
      = (v % 2 ^ (8 * w), pre.length + w) := by
  unfold deserializeNat
  rw [List.drop_left, List.take_left' (bytesOfNat_length w v),
    natOfBytes_bytesOfNat]

theorem decode_encode (pre : List Nat) (s : RemoteState) (h : s.wf) :
    decode (pre ++ encode s) pre.length = (s, pre.length + 13) := by
  obtain ⟨ct, sf, g⟩ := s
  obtain ⟨h1, h2⟩ := h
  have e1 := deserializeNat_append pre
    (bytesOfNat 4 sf ++ bytesOfNat 1 (boolByte g)) 8 ct
  have e2 := deserializeNat_append (pre ++ bytesOfNat 8 ct)
    (bytesOfNat 1 (boolByte g)) 4 sf
  have e3 := deserializeNat_append
    ((pre ++ bytesOfNat 8 ct) ++ bytesOfNat 4 sf) [] 1 (boolByte g)
  simp only [List.append_assoc, List.length_append, bytesOfNat_length,
    List.append_nil] at e1 e2 e3
  simp only [decode, encode, List.append_assoc]
  rw [e1]
  simp only
  rw [e2]
  simp only
  rw [e3]
  simp only
  have hct : ct % 2 ^ (8 * 8) = ct := Nat.mod_eq_of_lt (by norm_num at h1 ⊢; omega)
  have hsf : sf % 2 ^ (8 * 4) = sf := Nat.mod_eq_of_lt (by norm_num at h2 ⊢; omega)
  rw [hct, hsf]
  cases g <;> simp [boolByte]

theorem myDecodeFun_myEncodeFun (pre : List Nat) (s : DomeState) (h : s.wf) :
    myDecodeFun (pre ++ myEncodeFun s) pre.length = (s, pre.length + 19) := by
  obtain ⟨ct, i, st, w, ti, ii⟩ := s
  obtain ⟨h1, h2, h3⟩ := h
  have e1 := deserializeNat_append pre
    (bytesOfNat 1 (boolByte i) ++ (bytesOfNat 1 (boolByte st) ++
      (bytesOfNat 1 (boolByte w) ++ (bytesOfNat 4 ti ++ bytesOfNat 4 ii))))
    8 ct
  have e2 := deserializeNat_append (pre ++ bytesOfNat 8 ct)
    (bytesOfNat 1 (boolByte st) ++
      (bytesOfNat 1 (boolByte w) ++ (bytesOfNat 4 ti ++ bytesOfNat 4 ii)))
    1 (boolByte i)
  have e3 := deserializeNat_append
    ((pre ++ bytesOfNat 8 ct) ++ bytesOfNat 1 (boolByte i))
    (bytesOfNat 1 (boolByte w) ++ (bytesOfNat 4 ti ++ bytesOfNat 4 ii))
    1 (boolByte st)
  have e4 := deserializeNat_append
    (((pre ++ bytesOfNat 8 ct) ++ bytesOfNat 1 (boolByte i)) ++
      bytesOfNat 1 (boolByte st))
    (bytesOfNat 4 ti ++ bytesOfNat 4 ii) 1 (boolByte w)
  have e5 := deserializeNat_append
    ((((pre ++ bytesOfNat 8 ct) ++ bytesOfNat 1 (boolByte i)) ++
      bytesOfNat 1 (boolByte st)) ++ bytesOfNat 1 (boolByte w))
    (bytesOfNat 4 ii) 4 ti
  have e6 := deserializeNat_append
    (((((pre ++ bytesOfNat 8 ct) ++ bytesOfNat 1 (boolByte i)) ++
      bytesOfNat 1 (boolByte st)) ++ bytesOfNat 1 (boolByte w)) ++
      bytesOfNat 4 ti)
    [] 4 ii
  simp only [List.append_assoc, List.length_append, bytesOfNat_length,
    List.append_nil] at e1 e2 e3 e4 e5 e6
  simp only [myDecodeFun, myEncodeFun, List.append_assoc]
  rw [e1]
  simp only
  rw [e2]
  simp only
  rw [e3]
  simp only
  rw [e4]
  simp only
  rw [e5]
  simp only
  rw [e6]
  simp only
  have hct : ct % 2 ^ (8 * 8) = ct := Nat.mod_eq_of_lt (by norm_num at h1 ⊢; omega)
  have hti : ti % 2 ^ (8 * 4) = ti := Nat.mod_eq_of_lt (by norm_num at h2 ⊢; omega)
  have hii : ii % 2 ^ (8 * 4) = ii := Nat.mod_eq_of_lt (by norm_num at h3 ⊢; omega)
  rw [hct, hti, hii]
  cases i <;> cases st <;> cases w <;> simp [boolByte]

/-- C1: for every value of the synchronized state variables of the remote
app and of the dome viewer app, applying the client decode function to the
byte buffer produced by the master encode function, starting at the
position where encoding began, reconstructs exactly those values, reading
the fields in the same order encode wrote them, and reports the position
one past the encoded bytes (13 bytes for the remote app, 19 for the dome
viewer). -/
theorem C1_decode_encode_roundtrip (pre preD : List Nat) (r : RemoteState)
    (d : DomeState) (hr : r.wf) (hd : d.wf) :
    decode (pre ++ encode r) pre.length = (r, pre.length + 13) ∧
    myDecodeFun (preD ++ myEncodeFun d) preD.length = (d, preD.length + 19) :=
  ⟨decode_encode pre r hr, myDecodeFun_myEncodeFun preD d hd⟩

/-- Witness for C1 at a concrete state of each app, with a two byte
header in front of the remote payload. -/
theorem C1_decode_encode_roundtrip_witness :
    (RemoteState.wf ⟨3, 5, true⟩ ∧ DomeState.wf ⟨7, true, false, true, 9, 1⟩) ∧
    decode ([2, 6] ++ encode ⟨3, 5, true⟩) 2 = (⟨3, 5, true⟩, 15) ∧
    myDecodeFun ([] ++ myEncodeFun ⟨7, true, false, true, 9, 1⟩) 0
      = (⟨7, true, false, true, 9, 1⟩, 19) := by
  have hr : RemoteState.wf ⟨3, 5, true⟩ := by constructor <;> norm_num
  have hd : DomeState.wf ⟨7, true, false, true, 9, 1⟩ := by
    refine ⟨?_, ?_, ?_⟩ <;> norm_num
  have h := C1_decode_encode_roundtrip [2, 6] [] ⟨3, 5, true⟩
    ⟨7, true, false, true, 9, 1⟩ hr hd
  exact ⟨⟨hr, hd⟩, h.1, h.2⟩

/-- C2 counterexample: in a three node cluster (master plus clients 1 and
2, both connected throughout), after the master sent package 5, two
acknowledgements from client 1 alone drive `clientsUploadDone` to true,
although no acknowledgement from client 2 was ever observed — the handler
counts acknowledgements without tracking which client sent them, against
the static cluster size. -/
theorem C2_counterexample :
    (applyAcks 3 ⟨5, 0, false⟩ [(5, 1), (5, 1)]).clientsUploadDone = true ∧
    ∀ p ∈ [((5 : Int), (1 : Nat)), (5, 1)], p.2 ≠ 2 := by
  decide

/-- C2 amended: `clientsUploadDone` becomes true exactly when an
acknowledgement carrying the id of the last sent package raises the
static acknowledgement counter to `numberOfNodes - 1`; acknowledgements
are counted without recording which client sent them and against the
static cluster size, so a disconnected client is not excluded and
repeated acknowledgements from one client count several times.  Once
true, the acknowledge handler never resets the flag to false, and the
transfer status callback changes no transfer state at all. -/
theorem C2_ack_counter_characterization (numberOfNodes : Nat)
    (s : TransferState) (packageId : Int) (clientIndex : Nat) :
    ((myDataTransferAcknowledge numberOfNodes s packageId
        clientIndex).clientsUploadDone = true ↔
      (s.clientsUploadDone = true ∨
        (packageId = s.lastPackage ∧ s.counter + 1 = numberOfNodes - 1))) ∧
    (∀ (c : Bool) (i : Nat), myDataTransferStatus s c i = s) := by
  refine ⟨?_, fun c i => rfl⟩
  unfold myDataTransferAcknowledge
  split_ifs with h1 h2 <;> simp_all

/-- C3: once the destructor has cleared the running flag under the
Tracking mutex, every later `isRunning()` read observes false; if the
flag read of iteration `n` (zero based) returns false, the sampling loop
exits after at most `n + 1` iterations in total — the loop executes at
most the one iteration in which the false value is read — and so the
subsequent join returns. -/
theorem C3_stop_bounded_exit (s : TrackingManagerState) (reads : List Bool)
    (n : Nat) (hf : reads[n]? = some false) :
    (destructorStop s).isRunning = false ∧
    ∃ k, iterationsUntilExit reads = some k ∧ k ≤ n + 1 := by
  refine ⟨rfl, ?_⟩
  induction reads generalizing n with
  | nil => simp at hf
  | cons r rs ih =>
    cases n with
    | zero =>
      simp at hf
      subst hf
      exact ⟨1, rfl, by omega⟩
    | succ m =>
      simp only [List.getElem?_cons_succ] at hf
      cases r with
      | false => exact ⟨1, rfl, by omega⟩
      | true =>
        obtain ⟨k, hk, hle⟩ := ih m hf
        refine ⟨k + 1, ?_, by omega⟩
        simp [iterationsUntilExit, hk]

/-- Witness for C3: with flag reads true, true, false the loop exits
after exactly three iterations, within the bound. -/
theorem C3_stop_bounded_exit_witness :
    (([true, true, false] : List Bool)[2]? = some false) ∧
    (destructorStop ⟨true, 0⟩).isRunning = false ∧
    ∃ k, iterationsUntilExit [true, true, false] = some k ∧ k ≤ 3 := by
  refine ⟨by decide, ?_⟩
  exact C3_stop_bounded_exit ⟨true, 0⟩ [true, true, false] 2 (by decide)

/-- C4 counterexample: with VRPN available, one tracker named t with no
devices, and a configured head binding d at t that cannot be resolved,
`startSampling` returns without spawning the thread but logs an Error and
no Warning — refuting the claim that a warning is logged in this case. -/
theorem C4_counterexample :
    startSampling true [⟨"t", 1, []⟩] "t" "d" = (false, [LogLevel.Error]) ∧
    LogLevel.Warning ∉ (startSampling true [⟨"t", 1, []⟩] "t" "d").2 := by
  decide

theorem isEmpty_false_of_ne_nil {α : Type} {l : List α} (h : l ≠ []) :
    l.isEmpty = false := by
  cases l with
  | nil => exact absurd rfl h
  | cons a t => rfl

/-- C4 amended: `startSampling` spawns no thread when no trackers are
configured; when the library is built without the tracking backend it
only logs a Warning and spawns nothing, whatever the configuration; and
when the configured head binding (both names nonempty) cannot be
resolved it logs an Error — not a warning — and returns without spawning
the sampling thread.  In every case it returns normally, so startup
continues with tracking degraded. -/
theorem C4_startSampling_degraded (ts : List Tracker) (tn dn : String)
    (hts : ts ≠ [])
    (hn : ((tracker ts tn).bind (fun t => device t dn)).isNone = true)
    (htn : tn ≠ "") (hdn : dn ≠ "") :
    startSampling true [] tn dn = (false, []) ∧
    startSampling false ts tn dn = (false, [LogLevel.Warning]) ∧
    startSampling true ts tn dn = (false, [LogLevel.Error]) := by
  refine ⟨by simp [startSampling], by simp [startSampling], ?_⟩
  unfold startSampling
  simp [isEmpty_false_of_ne_nil hts, hn, htn, hdn]

/-- Witness for C4 at the configuration of the counterexample. -/
theorem C4_startSampling_degraded_witness :
    (([⟨"t", 1, []⟩] : List Tracker) ≠ [] ∧
      ((tracker [⟨"t", 1, []⟩] "t").bind
        (fun t => device t "d")).isNone = true ∧
      "t" ≠ "" ∧ "d" ≠ "") ∧
    startSampling true [] "t" "d" = (false, []) ∧
    startSampling false [⟨"t", 1, []⟩] "t" "d"
      = (false, [LogLevel.Warning]) ∧
    startSampling true [⟨"t", 1, []⟩] "t" "d"
      = (false, [LogLevel.Error]) := by
  refine ⟨⟨by decide, by decide, by decide, by decide⟩, ?_⟩
  exact C4_startSampling_degraded [⟨"t", 1, []⟩] "t" "d"
    (by decide) (by decide) (by decide) (by decide)

theorem tracker_eq_none_iff (ts : List Tracker) (n : String) :
    tracker ts n = none ↔ ∀ t ∈ ts, t.name ≠ n := by
  unfold tracker
  rw [List.find?_eq_none]
  simp

theorem addTracker_preserves_nodup (ts : List Tracker) (n : String)
    (h : (ts.map Tracker.name).Nodup) :
    (((addTracker ts n).1).map Tracker.name).Nodup := by
  unfold addTracker
  by_cases hc : tracker ts n = none
  · have hmem : n ∉ ts.map Tracker.name := by
      rw [tracker_eq_none_iff] at hc
      simp only [List.mem_map]
      rintro ⟨t, ht, rfl⟩
      exact hc t ht rfl
    simp [hc, List.nodup_append, newTracker, h, hmem]
  · have : (tracker ts n).isNone = false := by
      cases hx : tracker ts n with
      | none => exact absurd hx hc
      | some t => rfl
    simp [this, h]

theorem foldl_addTracker_nodup (names : List String) (ts : List Tracker)
    (h : (ts.map Tracker.name).Nodup) :
    (((names.foldl (fun acc m => (addTracker acc m).1) ts)).map
      Tracker.name).Nodup := by
  induction names generalizing ts with
  | nil => exact h
  | cons m ms ih =>
    exact ih ((addTracker ts m).1) (addTracker_preserves_nodup ts m h)

/-- C5: registering a tracker whose name already exists leaves the
collection unchanged and logs a Warning, not an Error; and starting from
a collection with pairwise distinct tracker names (such as the empty
one), any sequence of `addTracker` calls keeps the names pairwise
distinct. -/
theorem C5_addTracker_unique_names (ts : List Tracker) (n : String)
    (names : List String) (hdup : (tracker ts n).isSome = true)
    (hnodup : (ts.map Tracker.name).Nodup) :
    addTracker ts n = (ts, LogLevel.Warning) ∧
    (((names.foldl (fun acc m => (addTracker acc m).1) ts)).map
      Tracker.name).Nodup := by
  constructor
  · unfold addTracker
    have : (tracker ts n).isNone = false := by
      cases hx : tracker ts n with
      | none => rw [hx] at hdup; cases hdup
      | some t => rfl
    simp [this]
  · exact foldl_addTracker_nodup names ts hnodup

/-- Witness for C5: adding the existing name t to a one tracker
collection changes nothing and warns; folding the names a, a, t over it
still leaves the names distinct. -/
theorem C5_addTracker_unique_names_witness :
    ((tracker [⟨"t", 1, []⟩] "t").isSome = true ∧
      (([⟨"t", 1, []⟩] : List Tracker).map Tracker.name).Nodup) ∧
    addTracker [⟨"t", 1, []⟩] "t" = ([⟨"t", 1, []⟩], LogLevel.Warning) ∧
    (((["a", "a", "t"].foldl (fun acc m => (addTracker acc m).1)
      [⟨"t", 1, []⟩])).map Tracker.name).Nodup := by
  refine ⟨⟨by decide, by decide⟩, ?_⟩
  exact C5_addTracker_unique_names [⟨"t", 1, []⟩] "t" ["a", "a", "t"]
    (by decide) (by decide)

theorem updateFirstBySensorId_id (ds : List TrackingDevice) (id : Int)
    (f : TrackingDevice → TrackingDevice)
    (h : ∀ d ∈ ds, d.sensorId = id → f d = d) :
    updateFirstBySensorId ds id f = ds := by
  induction ds with
  | nil => rfl
  | cons d rest ih =>
    unfold updateFirstBySensorId
    by_cases hd : (d.sensorId == id) = true
    · rw [if_pos hd, h d (List.mem_cons_self d rest) (by simpa using hd)]
    · rw [if_neg hd,
        ih (fun x hx hxe => h x (List.mem_cons_of_mem d hx) hxe)]

/-- C6: a hardware tracking callback that fires with null userdata, or
with a sensor id not matching any registered device of the tracker, or
for a disabled device, modifies no device or tracker state and raises no
error: position callback for an unmatched sensor id on `trU`, position
callback whose matching devices are all disabled on `trD`, and button
and analog callbacks on a disabled device `d`. -/
theorem C6_callbacks_noop (trU trD : Tracker) (cb : TrackerCB)
    (d : TrackingDevice) (b : ButtonCB) (a : AnalogCB)
    (hunreg : ∀ d2 ∈ trU.devices, d2.sensorId ≠ cb.sensor)
    (hdis2 : ∀ d2 ∈ trD.devices, d2.sensorId = cb.sensor →
      d2.enabled = false)
    (hdis : d.enabled = false) :
    updateTracker none cb = none ∧
    updateTracker (some trU) cb = some trU ∧
    updateTracker (some trD) cb = some trD ∧
    updateButton d b = d ∧
    updateAnalog d a = d := by
  refine ⟨rfl, ?_, ?_, ?_, ?_⟩
  · have hnone : deviceBySensorId trU cb.sensor = none := by
      unfold deviceBySensorId
      rw [List.find?_eq_none]
      intro x hx
      simpa using hunreg x hx
    simp [updateTracker, hnone]
  · unfold updateTracker
    cases hx : deviceBySensorId trD cb.sensor with
    | none => simp [hx]
    | some d0 =>
      have hid : updateFirstBySensorId trD.devices cb.sensor
          (fun d2 => setSensorTransform d2
            (cb.pos.1 * trD.scale, cb.pos.2.1 * trD.scale,
              cb.pos.2.2 * trD.scale) cb.quat) = trD.devices := by
        apply updateFirstBySensorId_id
        intro x hx2 hxe
        unfold setSensorTransform
        rw [hdis2 x hx2 hxe]
        simp
      simp [hx, hid]
  · simp [updateButton, setButtonValue, hdis]
  · simp [updateAnalog, setAnalogValue, hdis]

/-- Witness for C6 at concrete trackers and devices: sensor id 9 does not
match the only (enabled) device of `demoTracker`; the only device of
`demoTrackerOff` matching sensor id 9 is disabled; `demoDeviceOff9` is
disabled. -/
theorem C6_callbacks_noop_witness :
    ((∀ d2 ∈ demoTracker.devices, d2.sensorId ≠ demoCB.sensor) ∧
      (∀ d2 ∈ demoTrackerOff.devices, d2.sensorId = demoCB.sensor →
        d2.enabled = false) ∧
      demoDeviceOff9.enabled = false) ∧
    updateTracker none demoCB = none ∧
    updateTracker (some demoTracker) demoCB = some demoTracker ∧
    updateTracker (some demoTrackerOff) demoCB = some demoTrackerOff ∧
    updateButton demoDeviceOff9 ⟨0, 1⟩ = demoDeviceOff9 ∧
    updateAnalog demoDeviceOff9 ⟨[5], 1⟩ = demoDeviceOff9 := by
  refine ⟨⟨by decide, by decide, by decide⟩, ?_⟩
  exact C6_callbacks_noop demoTracker demoTrackerOff demoCB demoDeviceOff9
    ⟨0, 1⟩ ⟨[5], 1⟩ (by decide) (by decide) (by decide)

/-- C8: with `setSyncParameters` never called, the Engine field
initializers give a 60 second barrier timeout (used by master and
clients alike) and an enabled once per second waiting message; calling
`setSyncParameters` with its declared default arguments produces the
same values. -/
theorem C8_sync_defaults (s : SyncParams) :
    initSyncParams.printSyncMessage = true ∧
    initSyncParams.syncTimeout = 60 ∧
    setSyncParametersDefault s = ⟨true, 60⟩ :=
  ⟨rfl, rfl, rfl⟩

/-- C9: in a single node cluster, one `threadWorker` iteration that picks
up a pending transfer finishes with both `serverUploadDone` and
`clientsUploadDone` set — the transfer is marked complete immediately
after the master upload, without any acknowledgement. -/
theorem C9_single_node_completes (s : WorkerState) (ht : s.transfer = true)
    (hs : s.serverUploadDone = false) (hc : s.clientsUploadDone = false) :
    (threadWorkerIteration 1 s).clientsUploadDone = true ∧
    (threadWorkerIteration 1 s).serverUploadDone = true := by
  simp [threadWorkerIteration, ht, hs, hc]

/-- Witness for C9 at the concrete pending state. -/
theorem C9_single_node_completes_witness :
    ((⟨true, false, false⟩ : WorkerState).transfer = true ∧
      (⟨true, false, false⟩ : WorkerState).serverUploadDone = false ∧
      (⟨true, false, false⟩ : WorkerState).clientsUploadDone = false) ∧
    (threadWorkerIteration 1 ⟨true, false, false⟩).clientsUploadDone
      = true ∧
    (threadWorkerIteration 1 ⟨true, false, false⟩).serverUploadDone
      = true := by
  refine ⟨⟨rfl, rfl, rfl⟩, ?_⟩
  exact C9_single_node_completes ⟨true, false, false⟩ rfl rfl rfl

/-- C10: every statistics history is a fixed array of exactly
HistoryLength = 128 entries; the initial statistics satisfy that, and
recording a frame keeps every length at 128 while placing each new
sample at index 0. -/
theorem C10_statistics_fixed_history (s : Statistics)
    (ft dt st lmin lmax : Rat) (h : s.wf) :
    HistoryLength = 128 ∧
    initStatistics.wf ∧
    (recordFrameStats s ft dt st lmin lmax).wf ∧
    (recordFrameStats s ft dt st lmin lmax).frametimes.head? = some ft ∧
    (recordFrameStats s ft dt st lmin lmax).drawTimes.head? = some dt ∧
    (recordFrameStats s ft dt st lmin lmax).syncTimes.head? = some st ∧
    (recordFrameStats s ft dt st lmin lmax).loopTimeMin.head? = some lmin ∧
    (recordFrameStats s ft dt st lmin lmax).loopTimeMax.head? = some lmax := by
  obtain ⟨h1, h2, h3, h4, h5⟩ := h
  refine ⟨rfl, ?_, ?_, rfl, rfl, rfl, rfl, rfl⟩
  · simp [Statistics.wf, initStatistics]
  · simp [Statistics.wf, recordFrameStats, List.length_dropLast,
      h1, h2, h3, h4, h5, HistoryLength]

/-- Witness for C10 at the initial statistics. -/
theorem C10_statistics_fixed_history_witness :
    initStatistics.wf ∧
    (HistoryLength = 128 ∧
      initStatistics.wf ∧
      (recordFrameStats initStatistics 1 2 3 4 5).wf ∧
      (recordFrameStats initStatistics 1 2 3 4 5).frametimes.head?
        = some 1 ∧
      (recordFrameStats initStatistics 1 2 3 4 5).drawTimes.head?
        = some 2 ∧
      (recordFrameStats initStatistics 1 2 3 4 5).syncTimes.head?
        = some 3 ∧
      (recordFrameStats initStatistics 1 2 3 4 5).loopTimeMin.head?
        = some 4 ∧
      (recordFrameStats initStatistics 1 2 3 4 5).loopTimeMax.head?
        = some 5) := by
  have hw : initStatistics.wf := by simp [Statistics.wf, initStatistics]
  exact ⟨hw, C10_statistics_fixed_history initStatistics 1 2 3 4 5 hw⟩

theorem count_devicePolls (k : PollKind) (i j i' j' : Nat)
    (d : TrackingDevice × VRPNPointer) :
    (devicePolls i' j' d).count (LoopEvent.poll k i j) =
      if i' = i ∧ j' = j ∧ d.1.enabled = true ∧ d.2.has k = true then 1
      else 0 := by
  obtain ⟨td, ps, pa, pb⟩ := d
  by_cases hii : i' = i
  · by_cases hjj : j' = j
    · subst hii
      subst hjj
      cases k <;> cases htd : td.enabled <;> cases ps <;> cases pa <;>
        cases pb <;>
        simp [devicePolls, VRPNPointer.has, htd]
    · cases k <;> cases htd : td.enabled <;> cases ps <;> cases pa <;>
        cases pb <;>
        simp [devicePolls, VRPNPointer.has, htd, hjj, List.count_cons,
          List.count_nil, LoopEvent.poll.injEq]
  · cases k <;> cases htd : td.enabled <;> cases ps <;> cases pa <;>
      cases pb <;>
      simp [devicePolls, VRPNPointer.has, htd, hii, List.count_cons,
        List.count_nil, LoopEvent.poll.injEq]

theorem count_trackerPolls_lt (k : PollKind) (i i' j : Nat)
    (ds : List (TrackingDevice × VRPNPointer)) :
    ∀ j0, j < j0 →
      (trackerPolls i' j0 ds).count (LoopEvent.poll k i j) = 0 := by
  induction ds with
  | nil => intro j0 hj; rfl
  | cons d rest ih =>
    intro j0 hj
    have hne : ¬(j0 = j) := by omega
    simp [trackerPolls, List.count_append, count_devicePolls, hne,
      ih (j0 + 1) (by omega)]

theorem count_trackerPolls_ne (k : PollKind) (i i' j : Nat)
    (ds : List (TrackingDevice × VRPNPointer)) (hne : i' ≠ i) :
    ∀ j0, (trackerPolls i' j0 ds).count (LoopEvent.poll k i j) = 0 := by
  induction ds with
  | nil => intro j0; rfl
  | cons d rest ih =>
    intro j0
    simp [trackerPolls, List.count_append, count_devicePolls, hne,
      ih (j0 + 1)]

theorem count_trackerPolls (k : PollKind) (i i' : Nat)
    (ds : List (TrackingDevice × VRPNPointer)) :
    ∀ (j0 jj : Nat) (d : TrackingDevice × VRPNPointer),
      ds[jj]? = some d →
      (trackerPolls i' j0 ds).count (LoopEvent.poll k i (j0 + jj)) =
        if i' = i ∧ d.1.enabled = true ∧ d.2.has k = true then 1 else 0 := by
  induction ds with
  | nil => intro j0 jj d hd; simp at hd
  | cons d0 rest ih =>
    intro j0 jj d hd
    cases jj with
    | zero =>
      simp only [List.getElem?_cons_zero, Option.some.injEq] at hd
      subst hd
      simp only [Nat.add_zero]
      simp [trackerPolls, List.count_append, count_devicePolls,
        count_trackerPolls_lt k i i' j0 rest (j0 + 1) (by omega)]
    | succ m =>
      simp only [List.getElem?_cons_succ] at hd
      have hne : ¬(j0 = j0 + (m + 1)) := by omega
      have harith : j0 + (m + 1) = (j0 + 1) + m := by omega
      rw [harith]
      simp [trackerPolls, List.count_append, count_devicePolls,
        show ¬(j0 = j0 + 1 + m) by omega, ih (j0 + 1) m d hd]

theorem count_passPolls_lt (k : PollKind) (i j : Nat)
    (ts : List (Option (List (TrackingDevice × VRPNPointer)))) :
    ∀ i0, i < i0 →
      (passPolls i0 ts).count (LoopEvent.poll k i j) = 0 := by
  induction ts with
  | nil => intro i0 hi; rfl
  | cons t rest ih =>
    intro i0 hi
    cases t with
    | none => simp [passPolls, ih (i0 + 1) (by omega)]
    | some ds =>
      simp [passPolls, List.count_append,
        count_trackerPolls_ne k i i0 j ds (by omega) 0,
        ih (i0 + 1) (by omega)]

theorem count_passPolls (k : PollKind) (j : Nat)
    (ts : List (Option (List (TrackingDevice × VRPNPointer)))) :
    ∀ (i0 ii : Nat) (ds : List (TrackingDevice × VRPNPointer))
      (d : TrackingDevice × VRPNPointer),
      ts[ii]? = some (some ds) → ds[j]? = some d →
      (passPolls i0 ts).count (LoopEvent.poll k (i0 + ii) j) =
        if d.1.enabled = true ∧ d.2.has k = true then 1 else 0 := by
  induction ts with
  | nil => intro i0 ii ds d ht hd; simp at ht
  | cons t rest ih =>
    intro i0 ii ds d ht hd
    cases ii with
    | zero =>
      simp only [List.getElem?_cons_zero, Option.some.injEq] at ht
      subst ht
      have hcnt := count_trackerPolls k i0 i0 ds 0 j d hd
      simp only [Nat.zero_add] at hcnt
      simp only [Nat.add_zero]
      simp [passPolls, List.count_append, hcnt,
        count_passPolls_lt k i0 j rest (i0 + 1) (by omega)]
    | succ m =>
      simp only [List.getElem?_cons_succ] at ht
      have harith : i0 + (m + 1) = (i0 + 1) + m := by omega
      rw [harith]
      cases t with
      | none => simp [passPolls, ih (i0 + 1) m ds d ht hd]
      | some ds0 =>
        simp [passPolls, List.count_append,
          count_trackerPolls_ne k (i0 + 1 + m) i0 j ds0 (by omega) 0,
          ih (i0 + 1) m ds d ht hd]

theorem mem_devicePolls (i j : Nat) (d : TrackingDevice × VRPNPointer)
    (e : LoopEvent) (he : e ∈ devicePolls i j d) :
    ∃ k, e = LoopEvent.poll k i j := by
  unfold devicePolls at he
  split_ifs at he <;> simp at he <;> aesop

theorem mem_trackerPolls (i : Nat)
    (ds : List (TrackingDevice × VRPNPointer)) :
    ∀ (j0 : Nat) (e : LoopEvent), e ∈ trackerPolls i j0 ds →
      ∃ k j2, e = LoopEvent.poll k i j2 := by
  induction ds with
  | nil => intro j0 e he; simp [trackerPolls] at he
  | cons d rest ih =>
    intro j0 e he
    rw [trackerPolls, List.mem_append] at he
    rcases he with he | he
    · obtain ⟨k, hk⟩ := mem_devicePolls i j0 d e he
      exact ⟨k, j0, hk⟩
    · exact ih (j0 + 1) e he

theorem mem_passPolls
    (ts : List (Option (List (TrackingDevice × VRPNPointer)))) :
    ∀ (i0 : Nat) (e : LoopEvent), e ∈ passPolls i0 ts →
      ∃ k i2 j2, e = LoopEvent.poll k i2 j2 := by
  induction ts with
  | nil => intro i0 e he; simp [passPolls] at he
  | cons t rest ih =>
    intro i0 e he
    cases t with
    | none => exact ih (i0 + 1) e he
    | some ds =>
      rw [passPolls, List.mem_append] at he
      rcases he with he | he
      · obtain ⟨k, j2, hk⟩ := mem_trackerPolls i0 ds 0 e he
        exact ⟨k, i0, j2, hk⟩
      · exact ih (i0 + 1) e he

/-- C7: in one pass of the sampling loop, the device at tracker index `i`
and device index `j` is polled exactly once on each of its existing VRPN
remotes when it is enabled and not at all when it is disabled; the pass
consists of the polls followed by exactly one flag read, one store of the
elapsed time of the pass as the sampling time (taken under the Tracking
mutex by `setSamplingTime`), and a one millisecond sleep, in this
order. -/
theorem C7_sampling_pass_polls_once
    (ts : List (Option (List (TrackingDevice × VRPNPointer))))
    (t0 t1 : Rat) (i j : Nat) (ds : List (TrackingDevice × VRPNPointer))
    (d : TrackingDevice × VRPNPointer) (k : PollKind)
    (ht : ts[i]? = some (some ds)) (hd : ds[j]? = some d) :
    ((samplingPass ts t0 t1).count (LoopEvent.poll k i j) =
      if d.1.enabled = true ∧ d.2.has k = true then 1 else 0) ∧
    samplingPass ts t0 t1 = passPolls 0 ts ++
      [LoopEvent.readRunning, LoopEvent.storeSamplingTime (t1 - t0),
        LoopEvent.sleepMs 1] ∧
    (∀ e ∈ passPolls 0 ts, ∃ k2 i2 j2, e = LoopEvent.poll k2 i2 j2) := by
  refine ⟨?_, rfl, fun e he => mem_passPolls ts 0 e he⟩
  have hcnt := count_passPolls k j ts 0 i ds d ht hd
  simp only [Nat.zero_add] at hcnt
  simp [samplingPass, List.count_append, hcnt]

/-- Witness for C7: two trackers, the second with an enabled device
carrying a sensor remote and a button remote, and a disabled device; the
enabled device is polled once on each remote, the disabled one never. -/
theorem C7_sampling_pass_polls_once_witness :
    (([none, some [(demoDevice7, ⟨true, false, true⟩),
        (demoDeviceOff9, ⟨true, true, true⟩)]] :
      List (Option (List (TrackingDevice × VRPNPointer))))[1]?
        = some (some [(demoDevice7, ⟨true, false, true⟩),
          (demoDeviceOff9, ⟨true, true, true⟩)]) ∧
      ([(demoDevice7, ⟨true, false, true⟩),
        (demoDeviceOff9, ⟨true, true, true⟩)] :
        List (TrackingDevice × VRPNPointer))[0]?
          = some (demoDevice7, ⟨true, false, true⟩)) ∧
    ((samplingPass [none, some [(demoDevice7, ⟨true, false, true⟩),
        (demoDeviceOff9, ⟨true, true, true⟩)]] 0 1).count
      (LoopEvent.poll PollKind.sensor 1 0) =
      if (demoDevice7, (⟨true, false, true⟩ : VRPNPointer)).1.enabled = true ∧
        (demoDevice7, (⟨true, false, true⟩ : VRPNPointer)).2.has
          PollKind.sensor = true then 1 else 0) ∧
    samplingPass [none, some [(demoDevice7, ⟨true, false, true⟩),
        (demoDeviceOff9, ⟨true, true, true⟩)]] 0 1 =
      passPolls 0 [none, some [(demoDevice7, ⟨true, false, true⟩),
        (demoDeviceOff9, ⟨true, true, true⟩)]] ++
      [LoopEvent.readRunning, LoopEvent.storeSamplingTime (1 - 0),
        LoopEvent.sleepMs 1] ∧
    (∀ e ∈ passPolls 0 [none, some [(demoDevice7, ⟨true, false, true⟩),
        (demoDeviceOff9, ⟨true, true, true⟩)]],
      ∃ k2 i2 j2, e = LoopEvent.poll k2 i2 j2) := by
  refine ⟨⟨by decide, by decide⟩, ?_⟩
  exact C7_sampling_pass_polls_once
    [none, some [(demoDevice7, ⟨true, false, true⟩),
      (demoDeviceOff9, ⟨true, true, true⟩)]] 0 1 1 0
    [(demoDevice7, ⟨true, false, true⟩), (demoDeviceOff9, ⟨true, true, true⟩)]
    (demoDevice7, ⟨true, false, true⟩) PollKind.sensor
    (by decide) (by decide)
